import Mathlib

/-!
Verification development for the starlink SMURF scripts
(pol2ip.py, configmeld.py, tounimap.py, pol2stack.py).

The scripts delegate all heavy numerical work to external programs; the
local logic embedded here is:

* the in-memory observation tables and the fit-and-reject loop of
  pol2ip.py (functions model2, objfun, resid, reject, the per-observation
  accumulation step, and the three-round fitting loop);
* the waveband-selection logic of configmeld.py;
* the top-level exception/cleanup behaviour of all four scripts.

Real numbers produced by the scripts are modelled as rationals.  The
transcendental library routines (math.cos, math.sin, math.sqrt, math.pi)
are parameters of the embedding, collected in a MathEnv record: every
claim below is either independent of their values or is stated for an
arbitrary environment.  The scipy simplex minimiser is likewise a
parameter (a function from the current data to fitted parameters), since
it is an external library routine.
-/

namespace Pol2Ip

/-- The mathematical library routines used by pol2ip.py.  math.radians is
derived from the pi field exactly as in the python library
(radians x = x * pi / 180). -/
structure MathEnv where
  cos : ℚ → ℚ
  sin : ℚ → ℚ
  sqrt : ℚ → ℚ
  pi : ℚ

/-- python math.radians: degrees to radians via the pi constant of the
environment. -/
def radiansQ (env : MathEnv) (el : ℚ) : ℚ := el * env.pi / 180

/-- The in-memory working set of pol2ip.py: the seven module-level lists
(elist, alist, qlist, ulist, utlist, obsnumlist, wvmlist), one entry per
retained observation. -/
@[ext]
structure FitState where
  elist : List ℚ
  alist : List ℚ
  qlist : List ℚ
  ulist : List ℚ
  utlist : List ℤ
  obsnumlist : List ℤ
  wvmlist : List ℚ
deriving DecidableEq, Repr

/-- pol2ip.py model2: normalised Q and U of the IP model at elevation el
(degrees) for parameters x = (a, b, c), scaled by the total intensity
ival (a module-level global of the script, passed here explicitly). -/
def model2 (env : MathEnv) (ival : ℚ) (el : ℚ) (x : ℚ × ℚ × ℚ) : ℚ × ℚ :=
  let (a, b, c) := x
  let elval := radiansQ env el
  let p1 := a + b * elval + c * elval * elval
  let qfp := ival * p1 * env.cos (-2 * elval)
  let ufp := ival * p1 * env.sin (-2 * elval)
  (qfp, ufp)

/-- pol2ip.py model: model2 applied to the i-th stored elevation.  In the
script the index is always in range; List.getD makes the lookup total
(the default is never read on reachable states). -/
def model (env : MathEnv) (ival : ℚ) (s : FitState) (i : ℕ) (x : ℚ × ℚ × ℚ) : ℚ × ℚ :=
  model2 env ival (s.elist.getD i 0) x

/-- The Q (useq = true) or U (useq = false) residual of observation i
from the model, i.e. the quantity dqu computed identically inside resid
and reject in pol2ip.py. -/
def dquAt (env : MathEnv) (ival : ℚ) (s : FitState) (useq : Bool) (x : ℚ × ℚ × ℚ)
    (i : ℕ) : ℚ :=
  let (qfp, ufp) := model env ival s i x
  if useq then qfp - s.qlist.getD i 0 else ufp - s.ulist.getD i 0

/-- pol2ip.py objfun: sum over all observations of the squared Q and U
residuals from the model. -/
def objfun (env : MathEnv) (ival : ℚ) (s : FitState) (x : ℚ × ℚ × ℚ) : ℚ :=
  ((List.range s.elist.length).map (fun i =>
    let dq := (model env ival s i x).1 - s.qlist.getD i 0
    let du := (model env ival s i x).2 - s.ulist.getD i 0
    dq * dq + du * du)).sum

/-- pol2ip.py resid: RMS of the Q (useq = true) or U (useq = false)
residuals.  The script divides by len(elist); on an empty list python
raises ZeroDivisionError, modelled here as Except.error. -/
def resid (env : MathEnv) (ival : ℚ) (s : FitState) (useq : Bool) (x : ℚ × ℚ × ℚ) :
    Except Unit ℚ :=
  if s.elist.length = 0 then Except.error ()
  else Except.ok (env.sqrt
    ((((List.range s.elist.length).map (fun i =>
        let d := dquAt env ival s useq x i
        d * d)).sum) / (s.elist.length : ℚ)))

/-- The indices whose residual passes the retention test of pol2ip.py
reject: observation i is kept exactly when fabs(dqu) < lim. -/
def keptIdx (env : MathEnv) (ival : ℚ) (useq : Bool) (lim : ℚ) (x : ℚ × ℚ × ℚ)
    (s : FitState) : List ℕ :=
  (List.range s.elist.length).filter (fun i => decide (|dquAt env ival s useq x i| < lim))

/-- pol2ip.py reject: rebuild qlist, ulist and elist, appending (in index
order) exactly the entries whose residual satisfies fabs(dqu) < lim.  The
other four module lists are not touched by the function. -/
def reject (env : MathEnv) (ival : ℚ) (useq : Bool) (lim : ℚ) (x : ℚ × ℚ × ℚ)
    (s : FitState) : FitState :=
  { s with
    qlist := (keptIdx env ival useq lim x s).map (fun i => s.qlist.getD i 0)
    ulist := (keptIdx env ival useq lim x s).map (fun i => s.ulist.getD i 0)
    elist := (keptIdx env ival useq lim x s).map (fun i => s.elist.getD i 0) }

/-- Second half of a loop iteration of pol2ip.py: given the outcome of
the U RMS computation on the Q-rejected state s1, either propagate the
error or apply the U rejection at twice the U RMS. -/
def roundU (env : MathEnv) (ival : ℚ) (x : ℚ × ℚ × ℚ) (s1 : FitState) :
    Except Unit ℚ → Except Unit FitState
  | Except.error e => Except.error e
  | Except.ok urms => Except.ok (reject env ival false (2 * urms) x s1)

/-- First half of a loop iteration of pol2ip.py: given the outcome of
the Q RMS computation, either propagate the error or apply the Q
rejection at twice the Q RMS and continue with the U pass. -/
def roundQ (env : MathEnv) (ival : ℚ) (x : ℚ × ℚ × ℚ) (s : FitState) :
    Except Unit ℚ → Except Unit FitState
  | Except.error e => Except.error e
  | Except.ok qrms =>
    roundU env ival x (reject env ival true (2 * qrms) x s)
      (resid env ival (reject env ival true (2 * qrms) x s) false x)

/-- One iteration of the fitting loop of pol2ip.py (lines 627-648): fit
the model (the scipy minimiser is the parameter fit), compute the Q RMS,
reject Q outliers at twice that RMS, compute the U RMS on the reduced
data, reject U outliers at twice that RMS.  A ZeroDivisionError inside
either resid call aborts the round. -/
def fitRound (env : MathEnv) (ival : ℚ) (fit : FitState → ℚ × ℚ × ℚ) (s : FitState) :
    Except Unit FitState :=
  roundQ env ival (fit s) s (resid env ival s true (fit s))

/-- Run n successive rounds of the fitting loop, returning how many
rounds completed and the final outcome (an uncaught ZeroDivisionError
propagates, as in python). -/
def runRounds (env : MathEnv) (ival : ℚ) (fit : FitState → ℚ × ℚ × ℚ) :
    ℕ → FitState → ℕ × Except Unit FitState
  | 0, s => (0, Except.ok s)
  | n + 1, s =>
    match fitRound env ival fit s with
    | Except.error e => (0, Except.error e)
    | Except.ok s2 =>
      ((runRounds env ival fit n s2).1 + 1, (runRounds env ival fit n s2).2)

/-- The fitting loop of pol2ip.py: for i in range(0,3), i.e. exactly
three attempted rounds with a fixed iteration count. -/
def fitLoop (env : MathEnv) (ival : ℚ) (fit : FitState → ℚ × ℚ × ℚ) (s : FitState) :
    ℕ × Except Unit FitState :=
  runRounds env ival fit 3 s

/-- The per-observation accumulation step of the main loop of pol2ip.py
(lines 520-574): el, az, wvm, ut and obsnum are appended unconditionally;
then either the Q and U values are appended (aperadd path, or successful
beamfit), or - when beamfit raises StarUtilError - the just-appended
last elements of the five other lists are deleted again. -/
def addObs (s : FitState) (el az wvm : ℚ) (ut obsnum : ℤ) (qu : Option (ℚ × ℚ)) :
    FitState :=
  let s1 : FitState :=
    { s with
      elist := s.elist ++ [el]
      alist := s.alist ++ [az]
      wvmlist := s.wvmlist ++ [wvm]
      utlist := s.utlist ++ [ut]
      obsnumlist := s.obsnumlist ++ [obsnum] }
  match qu with
  | some (q, u) => { s1 with qlist := s1.qlist ++ [q], ulist := s1.ulist ++ [u] }
  | none =>
    { s1 with
      obsnumlist := s1.obsnumlist.dropLast
      wvmlist := s1.wvmlist.dropLast
      alist := s1.alist.dropLast
      elist := s1.elist.dropLast
      utlist := s1.utlist.dropLast }

/-- The three lists rebuilt by reject have equal length. -/
def Aligned3 (s : FitState) : Prop :=
  s.qlist.length = s.elist.length ∧ s.ulist.length = s.elist.length

/-- All seven module lists have equal length. -/
def Aligned7 (s : FitState) : Prop :=
  Aligned3 s ∧ s.alist.length = s.elist.length ∧ s.wvmlist.length = s.elist.length ∧
    s.utlist.length = s.elist.length ∧ s.obsnumlist.length = s.elist.length

instance (s : FitState) : Decidable (Aligned3 s) := by unfold Aligned3; infer_instance

instance (s : FitState) : Decidable (Aligned7 s) := by unfold Aligned7; infer_instance

/-- The minimised objective exactly as the specification words it: the
sum over observations of squared Q and U residuals of a
quadratic-in-elevation model rotated into focal-plane Q and U by twice
the negated elevation in radians. -/
def specObjective (env : MathEnv) (ival : ℚ) (elist qlist ulist : List ℚ)
    (x : ℚ × ℚ × ℚ) : ℚ :=
  let (a, b, c) := x
  ((List.range elist.length).map (fun i =>
    let r := radiansQ env (elist.getD i 0)
    (ival * (a + b * r + c * r ^ 2) * env.cos (-2 * r) - qlist.getD i 0) ^ 2 +
      (ival * (a + b * r + c * r ^ 2) * env.sin (-2 * r) - ulist.getD i 0) ^ 2)).sum

/-- A concrete environment used by the closed counterexamples and
witnesses below.  All of them evaluate the model at elevation 0 only,
where cos, sin and radians take the values recorded here; sqrt is only
queried at arguments where the identity is the exact square root. -/
def env0 : MathEnv :=
  { cos := fun _ => 1
    sin := fun _ => 0
    sqrt := id
    pi := 314159265 / 100000000 }

/-- A one-observation state whose Q and U values are exactly the model
values at parameters (1, 0, 0) with ival = 1: the Q residual is 0, so
the round RMS is 0 and the retention test fabs(0) < 0 fails. -/
def sPerfect : FitState :=
  { elist := [0], alist := [], qlist := [1], ulist := [0],
    utlist := [], obsnumlist := [], wvmlist := [] }

/-- A seven-list aligned one-observation state used to show that reject
breaks seven-list alignment. -/
def sSeven : FitState :=
  { elist := [0], alist := [5], qlist := [1], ulist := [0],
    utlist := [7], obsnumlist := [8], wvmlist := [9] }

/-- Nine observations at elevation 0 whose model values at parameters
(0, 0, 0) are all (0, 0); one large Q outlier (value 3) at index 0, all
U values exactly on the model. -/
def sOutlier : FitState :=
  { elist := [0, 0, 0, 0, 0, 0, 0, 0, 0], alist := [],
    qlist := [3, 0, 0, 0, 0, 0, 0, 0, 0], ulist := [0, 0, 0, 0, 0, 0, 0, 0, 0],
    utlist := [], obsnumlist := [], wvmlist := [] }

/-- As sOutlier but with every U value 1 (U residuals all -1), so that
the U pass of the round keeps all remaining points. -/
def sOutlierU : FitState :=
  { elist := [0, 0, 0, 0, 0, 0, 0, 0, 0], alist := [],
    qlist := [3, 0, 0, 0, 0, 0, 0, 0, 0], ulist := [1, 1, 1, 1, 1, 1, 1, 1, 1],
    utlist := [], obsnumlist := [], wvmlist := [] }

/-- A one-observation state with Q and U residuals 1 at parameters
(0, 0, 0): every round keeps the point, so the loop completes all three
rounds. -/
def sSteady : FitState :=
  { elist := [0], alist := [], qlist := [-1], ulist := [-1],
    utlist := [], obsnumlist := [], wvmlist := [] }

end Pol2Ip

namespace Scripts

/-- Outcome of executing the body of the top-level try block of one of
the four scripts: normal completion, a StarUtilError raised by the
shared invocation helper, or any other exception (including keyboard
interrupt). -/
inductive BodyOutcome where
  | ok : BodyOutcome
  | starUtilError : String → BodyOutcome
  | other : BodyOutcome
deriving DecidableEq, Repr

/-- Observable effects of a complete script run: whether the cleanup
function was invoked, what was printed by the handlers, and whether the
exception was re-raised. -/
structure ScriptRun where
  cleanupCalled : Bool
  printed : List String
  reraised : Bool
deriving DecidableEq, Repr

/-- pol2ip.py top level (lines 304-729): cleanup() at the end of the try
block; except StarUtilError prints the message then calls cleanup();
bare except calls cleanup() then re-raises. -/
def pol2ipRun : BodyOutcome → ScriptRun
  | BodyOutcome.ok => { cleanupCalled := true, printed := [], reraised := false }
  | BodyOutcome.starUtilError m =>
      { cleanupCalled := true, printed := [m], reraised := false }
  | BodyOutcome.other => { cleanupCalled := true, printed := [], reraised := true }

/-- pol2stack.py top level (lines 197-463): identical handler structure
to pol2ip.py. -/
def pol2stackRun : BodyOutcome → ScriptRun
  | BodyOutcome.ok => { cleanupCalled := true, printed := [], reraised := false }
  | BodyOutcome.starUtilError m =>
      { cleanupCalled := true, printed := [m], reraised := false }
  | BodyOutcome.other => { cleanupCalled := true, printed := [], reraised := true }

/-- configmeld.py top level (lines 106-297): identical handler structure
to pol2ip.py (its cleanup function removes the two temporary config
listings and the ADAM directory, swallowing its own errors). -/
def configmeldRun : BodyOutcome → ScriptRun
  | BodyOutcome.ok => { cleanupCalled := true, printed := [], reraised := false }
  | BodyOutcome.starUtilError m =>
      { cleanupCalled := true, printed := [m], reraised := false }
  | BodyOutcome.other => { cleanupCalled := true, printed := [], reraised := true }

/-- The retention notice printed by the tounimap.py handlers in place of
any cleanup call (source lines 350 and 354; the format placeholder is
rendered by string concatenation). -/
def retentionMessage (tempdir : String) : String :=
  "unimap ended prematurely so intermediate files are being retained in " ++ tempdir

/-- tounimap.py top level (lines 143-355): cleanup() at the end of the
try block only.  Neither exception handler calls cleanup(): the
StarUtilError handler prints the error and a retention notice, and the
bare except handler prints the retention notice and re-raises. -/
def tounimapRun (tempdir : String) : BodyOutcome → ScriptRun
  | BodyOutcome.ok => { cleanupCalled := true, printed := [], reraised := false }
  | BodyOutcome.starUtilError m =>
      { cleanupCalled := false, printed := [m, retentionMessage tempdir],
        reraised := false }
  | BodyOutcome.other =>
      { cleanupCalled := false, printed := [retentionMessage tempdir], reraised := true }

end Scripts

namespace ConfigMeld

/-- The waveband determined for one config argument of configmeld.py
(lines 147-174 for CONFIG1, lines 181-208 for CONFIG2).  Inputs: whether
reading the SUBARRAY FITS header succeeded (the argument is an NDF), and
the subarray string obtained from the header or from the provenance scan
(none when neither identifies the subarray).  For an NDF the second
character of the subarray string selects the waveband: 4 gives 450, 8
gives 850, anything else raises InvalidParameterError (modelled as
Except.error).  For a non-NDF the waveband is left undetermined. -/
def wavebandOf (isndf : Bool) (subarray : Option String) : Except Unit (Option String) :=
  if isndf then
    match subarray with
    | none => Except.ok none
    | some sa =>
      if (sa.drop 1).take 1 = "4" then Except.ok (some "450")
      else if (sa.drop 1).take 1 = "8" then Except.ok (some "850")
      else Except.error ()
  else Except.ok none

/-- The waveband merge logic of configmeld.py (lines 210-225): a
determined waveband fills in an undetermined one; if neither is
determined the WAVEBAND parameter value is used for both; if both are
determined they are kept as they are (a critical warning is issued when
they differ). -/
def mergeWavebands (w1 w2 : Option String) (wavebandPar : String) :
    Option String × Option String :=
  if w1 ≠ none ∧ w2 = none then (w1, w1)
  else if w1 = none ∧ w2 ≠ none then (w2, w2)
  else if w1 = none ∧ w2 = none then (some wavebandPar, some wavebandPar)
  else (w1, w2)

/-- python str() formatting of the merged waveband values as they appear
in the report messages. -/
def showWaveband : Option String → String
  | none => "None"
  | some s => s

/-- The report messages of configmeld.py (lines 228-235): one shared
message when the two wavebands agree, otherwise one message per config
naming the waveband taken from that config. -/
def wavebandReport (w1 w2 : Option String) (config1 config2 : String) : List String :=
  if w1 = w2 then ["Showing " ++ showWaveband w1 ++ " um values"]
  else
    ["Showing " ++ showWaveband w1 ++ " um values from " ++ config1,
     "Showing " ++ showWaveband w2 ++ " um values from " ++ config2]

/-- The configecho waveband selection specifier computed for each config
(lines 238-241 and 261-264); the shell quoting wrapper is elided. -/
def selectFor (w : Option String) : String :=
  if w = some "450" then "850=0,450=1" else "850=1,450=0"

end ConfigMeld

namespace Pol2Ip

/-! Helper lemmas about index lists, shared by the claim theorems. -/

theorem map_getD_range {α : Type} (l : List α) (d : α) :
    (List.range l.length).map (fun i => l.getD i d) = l := by
  induction l with
  | nil => rfl
  | cons a t ih =>
    simp only [List.length_cons, List.range_succ_eq_map, List.map_cons, List.getD_cons_zero,
      List.map_map]
    have hcomp : ((fun i => (a :: t).getD i d) ∘ Nat.succ) = fun i => t.getD i d := by
      funext i; rfl
    rw [hcomp, ih]

theorem filter_of_map_succ (p : ℕ → Bool) (l : List ℕ) :
    (l.map Nat.succ).filter p = (l.filter (fun i => p (i + 1))).map Nat.succ := by
  induction l with
  | nil => rfl
  | cons a t ih =>
    by_cases h : p (a + 1)
    · rw [List.map_cons, List.filter_cons_of_pos h, ih,
        List.filter_cons_of_pos (p := fun i => p (i + 1)) h, List.map_cons]
    · rw [List.map_cons, List.filter_cons_of_neg h, ih,
        List.filter_cons_of_neg (p := fun i => p (i + 1)) h]

theorem filter_ne_map_getD {α : Type} (l : List α) (d : α) (j : ℕ) :
    ((List.range l.length).filter (fun i => decide (i ≠ j))).map (fun i => l.getD i d)
      = l.eraseIdx j := by
  induction l generalizing j with
  | nil => rfl
  | cons a t ih =>
    rw [List.length_cons, List.range_succ_eq_map]
    cases j with
    | zero =>
      rw [List.filter_cons_of_neg (by simp), filter_of_map_succ]
      have hpred : (fun i => decide (i + 1 ≠ 0)) = fun _ : ℕ => true := by
        funext i; simp
      rw [hpred, List.filter_true, List.map_map]
      have hcomp : ((fun i => (a :: t).getD i d) ∘ Nat.succ)
          = fun i => t.getD i d := by funext i; rfl
      rw [hcomp, map_getD_range]
      rfl
    | succ k =>
      rw [List.filter_cons_of_pos (by simp), filter_of_map_succ]
      have hpred : (fun i => decide (i + 1 ≠ k + 1)) = fun i => decide (i ≠ k) := by
        funext i
        simp
      rw [hpred, List.map_cons, List.map_map]
      have hcomp : ((fun i => (a :: t).getD i d) ∘ Nat.succ)
          = fun i => t.getD i d := by funext i; rfl
      rw [List.getD_cons_zero, hcomp, ih k]
      rfl

theorem getD_map_of_lt {α : Type} (f : ℕ → α) (l : List ℕ) (i : ℕ) (h : i < l.length)
    (d : α) (d2 : ℕ) : (l.map f).getD i d = f (l.getD i d2) := by
  rw [List.getD_eq_getElem _ _ (by simpa using h), List.getD_eq_getElem _ _ h]
  simp

theorem pairwise_lt_getD (l : List ℕ) (h : l.Pairwise (· < ·)) (i j : ℕ) (hij : i < j)
    (hj : j < l.length) : l.getD i 0 < l.getD j 0 := by
  have hi : i < l.length := lt_trans hij hj
  rw [List.getD_eq_getElem _ _ hi, List.getD_eq_getElem _ _ hj]
  exact List.pairwise_iff_get.mp h ⟨i, hi⟩ ⟨j, hj⟩ hij

/-- Every index kept by reject is an index into the current lists. -/
theorem keptIdx_lt (env : MathEnv) (ival : ℚ) (useq : Bool) (lim : ℚ) (x : ℚ × ℚ × ℚ)
    (s : FitState) : ∀ k ∈ keptIdx env ival useq lim x s, k < s.elist.length := by
  intro k hk
  exact List.mem_range.mp (List.mem_of_mem_filter hk)

/-- The kept indices are strictly increasing. -/
theorem keptIdx_pairwise (env : MathEnv) (ival : ℚ) (useq : Bool) (lim : ℚ)
    (x : ℚ × ℚ × ℚ) (s : FitState) :
    (keptIdx env ival useq lim x s).Pairwise (· < ·) :=
  (List.pairwise_lt_range _).sublist (List.filter_sublist _)

/-- The three lists rebuilt by reject always end up with equal length. -/
theorem reject_aligned3 (env : MathEnv) (ival : ℚ) (useq : Bool) (lim : ℚ)
    (x : ℚ × ℚ × ℚ) (s : FitState) : Aligned3 (reject env ival useq lim x s) := by
  unfold reject Aligned3
  simp [List.length_map]

/-- If every current residual is strictly below the limit, reject keeps
the whole (aligned) state unchanged. -/
theorem reject_keep_all (env : MathEnv) (ival : ℚ) (useq : Bool) (lim : ℚ)
    (x : ℚ × ℚ × ℚ) (s : FitState) (hal : Aligned3 s)
    (h : ∀ i, i < s.elist.length → |dquAt env ival s useq x i| < lim) :
    reject env ival useq lim x s = s := by
  obtain ⟨hq, hu⟩ := hal
  have hkeep : keptIdx env ival useq lim x s = List.range s.elist.length := by
    apply List.filter_eq_self.mpr
    intro i hi
    exact decide_eq_true (h i (List.mem_range.mp hi))
  have e1 : (List.range s.elist.length).map (fun i => s.qlist.getD i 0) = s.qlist := by
    rw [← hq, map_getD_range]
  have e2 : (List.range s.elist.length).map (fun i => s.ulist.getD i 0) = s.ulist := by
    rw [← hu, map_getD_range]
  have e3 : (List.range s.elist.length).map (fun i => s.elist.getD i 0) = s.elist :=
    map_getD_range s.elist 0
  unfold reject
  rw [hkeep, e1, e2, e3]

/-- If no current residual is strictly below the limit, reject empties
all three rebuilt lists. -/
theorem reject_drop_all (env : MathEnv) (ival : ℚ) (useq : Bool) (lim : ℚ)
    (x : ℚ × ℚ × ℚ) (s : FitState)
    (h : ∀ i, i < s.elist.length → ¬ (|dquAt env ival s useq x i| < lim)) :
    reject env ival useq lim x s =
      { s with elist := [], qlist := [], ulist := [] } := by
  have hkeep : keptIdx env ival useq lim x s = [] := by
    apply List.filter_eq_nil_iff.mpr
    intro i hi
    simpa using h i (List.mem_range.mp hi)
  unfold reject
  rw [hkeep]
  rfl

/-- If exactly the index j fails the retention test, reject removes
exactly the j-th entry of each of the three rebuilt lists. -/
theorem reject_outlier (env : MathEnv) (ival : ℚ) (useq : Bool) (lim : ℚ)
    (x : ℚ × ℚ × ℚ) (s : FitState) (j : ℕ) (hal : Aligned3 s)
    (hout : ¬ (|dquAt env ival s useq x j| < lim))
    (hin : ∀ i, i < s.elist.length → i ≠ j → |dquAt env ival s useq x i| < lim) :
    reject env ival useq lim x s =
      { s with elist := s.elist.eraseIdx j, qlist := s.qlist.eraseIdx j,
               ulist := s.ulist.eraseIdx j } := by
  obtain ⟨hq, hu⟩ := hal
  have hkeep : keptIdx env ival useq lim x s
      = (List.range s.elist.length).filter (fun i => decide (i ≠ j)) := by
    apply List.filter_congr
    intro i hi
    have hi2 := List.mem_range.mp hi
    apply decide_eq_decide.mpr
    constructor
    · intro hlt hij
      exact hout (hij ▸ hlt)
    · intro hij
      exact hin i hi2 hij
  have e1 : ((List.range s.elist.length).filter (fun i => decide (i ≠ j))).map
      (fun i => s.qlist.getD i 0) = s.qlist.eraseIdx j := by
    rw [← hq, filter_ne_map_getD]
  have e2 : ((List.range s.elist.length).filter (fun i => decide (i ≠ j))).map
      (fun i => s.ulist.getD i 0) = s.ulist.eraseIdx j := by
    rw [← hu, filter_ne_map_getD]
  have e3 : ((List.range s.elist.length).filter (fun i => decide (i ≠ j))).map
      (fun i => s.elist.getD i 0) = s.elist.eraseIdx j :=
    filter_ne_map_getD s.elist 0 j
  unfold reject
  rw [hkeep, e1, e2, e3]

/-- Case analysis for a completed round: fitRound succeeds exactly when
both resid calls succeed, and then the result is the U rejection applied
after the Q rejection. -/
theorem fitRound_ok_iff (env : MathEnv) (ival : ℚ) (fit : FitState → ℚ × ℚ × ℚ)
    (s s2 : FitState) :
    fitRound env ival fit s = Except.ok s2 ↔
      ∃ qrms urms, resid env ival s true (fit s) = Except.ok qrms ∧
        resid env ival (reject env ival true (2 * qrms) (fit s) s) false (fit s)
          = Except.ok urms ∧
        s2 = reject env ival false (2 * urms) (fit s)
          (reject env ival true (2 * qrms) (fit s) s) := by
  unfold fitRound
  cases h1 : resid env ival s true (fit s) with
  | error e => simp [roundQ]
  | ok qrms =>
    rw [roundQ]
    cases h2 : resid env ival (reject env ival true (2 * qrms) (fit s) s) false (fit s) with
    | error e =>
      rw [roundU]
      constructor
      · intro hcontra
        simp at hcontra
      · rintro ⟨q2, u2, hq2, hu2, rfl⟩
        injection hq2 with h
        subst h
        rw [h2] at hu2
        simp at hu2
    | ok urms =>
      rw [roundU]
      constructor
      · intro hok
        injection hok with h
        exact ⟨qrms, urms, rfl, h2, h.symm⟩
      · rintro ⟨q2, u2, hq2, hu2, rfl⟩
        injection hq2 with h
        subst h
        rw [h2] at hu2
        injection hu2 with h
        subst h
        rfl

/-- A round aborts when the second resid call hits an empty list. -/
theorem fitRound_eq_error (env : MathEnv) (ival : ℚ) (fit : FitState → ℚ × ℚ × ℚ)
    (s : FitState) (qrms : ℚ)
    (h1 : resid env ival s true (fit s) = Except.ok qrms)
    (h2 : resid env ival (reject env ival true (2 * qrms) (fit s) s) false (fit s)
      = Except.error ()) :
    fitRound env ival fit s = Except.error () := by
  unfold fitRound
  rw [h1, roundQ, h2, roundU]

/-- A round that passes both resid calls returns the doubly rejected
state. -/
theorem fitRound_eq_ok (env : MathEnv) (ival : ℚ) (fit : FitState → ℚ × ℚ × ℚ)
    (s : FitState) (qrms urms : ℚ)
    (h1 : resid env ival s true (fit s) = Except.ok qrms)
    (h2 : resid env ival (reject env ival true (2 * qrms) (fit s) s) false (fit s)
      = Except.ok urms) :
    fitRound env ival fit s = Except.ok (reject env ival false (2 * urms) (fit s)
      (reject env ival true (2 * qrms) (fit s) s)) := by
  unfold fitRound
  rw [h1, roundQ, h2, roundU]

/-- The objective is a sum of squares, hence nonnegative. -/
theorem objfun_nonneg (env : MathEnv) (ival : ℚ) (s : FitState) (x : ℚ × ℚ × ℚ) :
    0 ≤ objfun env ival s x := by
  apply List.sum_nonneg
  intro t ht
  obtain ⟨i, _, rfl⟩ := List.mem_map.mp ht
  exact add_nonneg (mul_self_nonneg _) (mul_self_nonneg _)

/-- Claim C4: for every parameter triple and every dataset, objfun is the
sum over observations of the squared Q and U residuals of the
quadratic-in-elevation model rotated into focal-plane Q and U by twice
the negated elevation (in radians), exactly as the specification words
it. -/
theorem objfun_matches_spec (env : MathEnv) (ival : ℚ) (s : FitState) (x : ℚ × ℚ × ℚ) :
    objfun env ival s x = specObjective env ival s.elist s.qlist s.ulist x := by
  obtain ⟨a, b, c⟩ := x
  simp only [objfun, specObjective, model, model2]
  congr 1
  apply List.map_congr_left
  intro i _
  ring

/-- Claim C5: on a dataset generated exactly from the model at
parameters x with zero noise, the objective vanishes at x, x is a global
minimiser, and both RMS residuals are exactly 0. -/
theorem perfect_data_fit (env : MathEnv) (ival : ℚ) (s : FitState) (x : ℚ × ℚ × ℚ)
    (hsqrt : env.sqrt 0 = 0) (hne : s.elist ≠ [])
    (hq : ∀ i, i < s.elist.length →
      s.qlist.getD i 0 = (model2 env ival (s.elist.getD i 0) x).1)
    (hu : ∀ i, i < s.elist.length →
      s.ulist.getD i 0 = (model2 env ival (s.elist.getD i 0) x).2) :
    objfun env ival s x = 0 ∧ (∀ y, objfun env ival s x ≤ objfun env ival s y) ∧
      resid env ival s true x = Except.ok 0 ∧ resid env ival s false x = Except.ok 0 := by
  have hdq : ∀ i, i < s.elist.length → dquAt env ival s true x i = 0 := by
    intro i hi
    simp only [dquAt, model]
    rw [← hq i hi]
    simp
  have hdu : ∀ i, i < s.elist.length → dquAt env ival s false x i = 0 := by
    intro i hi
    simp only [dquAt, model]
    rw [← hu i hi]
    simp
  have hlen : s.elist.length ≠ 0 := fun h => hne (List.length_eq_zero.mp h)
  have hobj : objfun env ival s x = 0 := by
    apply List.sum_eq_zero
    intro t ht
    obtain ⟨i, hi, rfl⟩ := List.mem_map.mp ht
    have hi2 : i < s.elist.length := List.mem_range.mp hi
    have h1 : (model env ival s i x).1 - s.qlist.getD i 0 = 0 := by
      have := hdq i hi2
      simpa [dquAt] using this
    have h2 : (model env ival s i x).2 - s.ulist.getD i 0 = 0 := by
      have := hdu i hi2
      simpa [dquAt] using this
    rw [h1, h2]
    ring
  have hres : ∀ useq, (∀ i, i < s.elist.length → dquAt env ival s useq x i = 0) →
      resid env ival s useq x = Except.ok 0 := by
    intro useq hzero
    unfold resid
    rw [if_neg hlen]
    have hsum : ((List.range s.elist.length).map (fun i =>
        let d := dquAt env ival s useq x i
        d * d)).sum = 0 := by
      apply List.sum_eq_zero
      intro t ht
      obtain ⟨i, hi, rfl⟩ := List.mem_map.mp ht
      have hi2 : i < s.elist.length := List.mem_range.mp hi
      simp [hzero i hi2]
    rw [hsum, zero_div, hsqrt]
  exact ⟨hobj, fun y => hobj ▸ objfun_nonneg env ival s y, hres true hdq, hres false hdu⟩

/-- Witness for claim C5 at a concrete one-observation dataset generated
exactly from the model at parameters (1, 0, 0); the global-minimum part
is sampled at the concrete competitor (2, 3, 4). -/
theorem perfect_data_fit_witness :
    objfun env0 1 sPerfect (1, 0, 0) = 0 ∧
      objfun env0 1 sPerfect (1, 0, 0) ≤ objfun env0 1 sPerfect (2, 3, 4) ∧
      resid env0 1 sPerfect true (1, 0, 0) = Except.ok 0 ∧
      resid env0 1 sPerfect false (1, 0, 0) = Except.ok 0 :=
  have h := perfect_data_fit env0 1 sPerfect (1, 0, 0) rfl (by norm_num [sPerfect])
    (by
      intro i hi
      rw [show sPerfect.elist.length = 1 from rfl, Nat.lt_one_iff] at hi
      subst hi
      norm_num [sPerfect, model2, radiansQ, env0])
    (by
      intro i hi
      rw [show sPerfect.elist.length = 1 from rfl, Nat.lt_one_iff] at hi
      subst hi
      norm_num [sPerfect, model2, radiansQ, env0])
  ⟨h.1, h.2.1 (2, 3, 4), h.2.2.1, h.2.2.2⟩

/-- Claim C3 (amended): in each rejection pass, with lim twice the RMS
residual of that round, a data point is retained exactly when its absolute
residual is strictly below lim, and dropped exactly when its absolute
residual is greater than or equal to lim; the rebuilt elevation list
consists exactly of the entries at the kept indices. -/
theorem reject_threshold (env : MathEnv) (ival : ℚ) (useq : Bool) (x : ℚ × ℚ × ℚ)
    (s : FitState) (rms : ℚ) (hr : resid env ival s useq x = Except.ok rms)
    (i : ℕ) (hi : i < s.elist.length) :
    ((reject env ival useq (2 * rms) x s).elist =
      (keptIdx env ival useq (2 * rms) x s).map (fun k => s.elist.getD k 0)) ∧
    (i ∈ keptIdx env ival useq (2 * rms) x s ↔ |dquAt env ival s useq x i| < 2 * rms) ∧
    (i ∉ keptIdx env ival useq (2 * rms) x s ↔ 2 * rms ≤ |dquAt env ival s useq x i|) := by
  have h1 : i ∈ keptIdx env ival useq (2 * rms) x s ↔
      |dquAt env ival s useq x i| < 2 * rms := by
    unfold keptIdx
    constructor
    · intro h
      exact of_decide_eq_true (List.mem_filter.mp h).2
    · intro h
      exact List.mem_filter.mpr ⟨List.mem_range.mpr hi, decide_eq_true h⟩
  exact ⟨rfl, h1, (not_congr h1).trans not_lt⟩

/-- Witness for claim C3 (amended) on a concrete one-point dataset with
residual 1 and RMS 1: the point is kept since 1 < 2. -/
theorem reject_threshold_witness :
    ((reject env0 1 true (2 * 1) (0, 0, 0) sSteady).elist =
      (keptIdx env0 1 true (2 * 1) (0, 0, 0) sSteady).map
        (fun k => sSteady.elist.getD k 0)) ∧
    ((0 : ℕ) ∈ keptIdx env0 1 true (2 * 1) (0, 0, 0) sSteady ↔
      |dquAt env0 1 sSteady true (0, 0, 0) 0| < 2 * 1) ∧
    ((0 : ℕ) ∉ keptIdx env0 1 true (2 * 1) (0, 0, 0) sSteady ↔
      2 * 1 ≤ |dquAt env0 1 sSteady true (0, 0, 0) 0|) :=
  reject_threshold env0 1 true (0, 0, 0) sSteady 1
    (by
      rw [resid, show sSteady.elist.length = 1 from rfl,
        show List.range 1 = [0] from rfl]
      norm_num [dquAt, model, model2, radiansQ, env0, sSteady])
    0 (by decide)

/-- Counterexample to claim C3 as stated: on a one-point dataset fitted
exactly, the RMS is 0 and the residual 0 does not exceed twice the RMS,
yet the point is dropped (the rebuilt elevation list is empty), because
the code keeps a point only when fabs(dqu) < lim strictly. -/
theorem reject_threshold_counterexample :
    resid env0 1 sPerfect true (1, 0, 0) = Except.ok 0 ∧
    ¬ (2 * 0 < |dquAt env0 1 sPerfect true (1, 0, 0) 0|) ∧
    (reject env0 1 true (2 * 0) (1, 0, 0) sPerfect).elist = [] := by
  refine ⟨?_, ?_, ?_⟩
  · rw [resid, show sPerfect.elist.length = 1 from rfl, show List.range 1 = [0] from rfl]
    norm_num [dquAt, model, model2, radiansQ, env0, sPerfect]
  · norm_num [dquAt, model, model2, radiansQ, env0, sPerfect]
  · rw [reject, keptIdx, show sPerfect.elist.length = 1 from rfl,
      show List.range 1 = [0] from rfl]
    norm_num [dquAt, model, model2, radiansQ, env0, sPerfect]

/-- Composing two strictly increasing, in-range index selections gives a
strictly increasing selection. -/
theorem comp_pairwise (k1 k2 : List ℕ) (hp1 : k1.Pairwise (· < ·))
    (hp2 : k2.Pairwise (· < ·)) (hb2 : ∀ k ∈ k2, k < k1.length) :
    (k2.map (fun k => k1.getD k 0)).Pairwise (· < ·) := by
  rw [List.pairwise_map]
  apply List.Pairwise.imp_of_mem ?_ hp2
  intro a b ha hb hab
  exact pairwise_lt_getD k1 hp1 a b hab (hb2 b hb)

/-- Selecting from a selected list is selecting along composed
indices. -/
theorem comp_map_getD {α : Type} (L : List α) (k1 k2 : List ℕ) (d : α)
    (hb2 : ∀ k ∈ k2, k < k1.length) :
    k2.map (fun i => (k1.map (fun j => L.getD j d)).getD i d)
      = (k2.map (fun k => k1.getD k 0)).map (fun j => L.getD j d) := by
  rw [List.map_map]
  apply List.map_congr_left
  intro k hk
  exact getD_map_of_lt (fun j => L.getD j d) k1 k (hb2 k hk) d 0

/-- Claim C7: after any completed rejection round, the elevation, Q and
U lists have identical length, and there is a single strictly increasing
list of original indices such that all three result lists are exactly
the original entries at those indices: equal positions in the three
lists refer to the same original observation, in original order. -/
theorem round_alignment (env : MathEnv) (ival : ℚ) (fit : FitState → ℚ × ℚ × ℚ)
    (s s2 : FitState) (h : fitRound env ival fit s = Except.ok s2) :
    Aligned3 s2 ∧
    ∃ keep : List ℕ, keep.Pairwise (· < ·) ∧ (∀ k ∈ keep, k < s.elist.length) ∧
      s2.elist = keep.map (fun k => s.elist.getD k 0) ∧
      s2.qlist = keep.map (fun k => s.qlist.getD k 0) ∧
      s2.ulist = keep.map (fun k => s.ulist.getD k 0) := by
  obtain ⟨qrms, urms, h1, h2, rfl⟩ := (fitRound_ok_iff env ival fit s s2).mp h
  refine ⟨reject_aligned3 _ _ _ _ _ _, ?_⟩
  have hk1p := keptIdx_pairwise env ival true (2 * qrms) (fit s) s
  have hk1b := keptIdx_lt env ival true (2 * qrms) (fit s) s
  have hk2p := keptIdx_pairwise env ival false (2 * urms) (fit s)
    (reject env ival true (2 * qrms) (fit s) s)
  have hk2b : ∀ k ∈ keptIdx env ival false (2 * urms) (fit s)
      (reject env ival true (2 * qrms) (fit s) s),
      k < (keptIdx env ival true (2 * qrms) (fit s) s).length := by
    intro k hk
    have := keptIdx_lt env ival false (2 * urms) (fit s)
      (reject env ival true (2 * qrms) (fit s) s) k hk
    simpa [reject, List.length_map] using this
  refine ⟨(keptIdx env ival false (2 * urms) (fit s)
      (reject env ival true (2 * qrms) (fit s) s)).map
      (fun k => (keptIdx env ival true (2 * qrms) (fit s) s).getD k 0),
    comp_pairwise _ _ hk1p hk2p hk2b, ?_, ?_, ?_, ?_⟩
  · intro m hm
    obtain ⟨k, hk, rfl⟩ := List.mem_map.mp hm
    apply hk1b
    rw [List.getD_eq_getElem _ _ (hk2b k hk)]
    exact List.getElem_mem _
  · exact comp_map_getD s.elist _ _ 0 hk2b
  · exact comp_map_getD s.qlist _ _ 0 hk2b
  · exact comp_map_getD s.ulist _ _ 0 hk2b

/-- On the one-point steady dataset both RMS computations give 1. -/
theorem sSteady_resid (useq : Bool) :
    resid env0 1 sSteady useq (0, 0, 0) = Except.ok 1 := by
  cases useq <;>
  · rw [resid, show sSteady.elist.length = 1 from rfl, show List.range 1 = [0] from rfl]
    norm_num [dquAt, model, model2, radiansQ, env0, sSteady]

/-- On the one-point steady dataset both rejection passes keep the
point, since its residual 1 is below the limit 2. -/
theorem sSteady_reject (useq : Bool) :
    reject env0 1 useq (2 * 1) (0, 0, 0) sSteady = sSteady := by
  cases useq <;>
  · rw [reject, keptIdx, show sSteady.elist.length = 1 from rfl,
      show List.range 1 = [0] from rfl]
    norm_num [dquAt, model, model2, radiansQ, env0, sSteady]

/-- A full round on the steady dataset completes and keeps the state. -/
theorem sSteady_round :
    fitRound env0 1 (fun _ => ((0 : ℚ), (0 : ℚ), (0 : ℚ))) sSteady = Except.ok sSteady := by
  have h2 : resid env0 1 (reject env0 1 true (2 * 1) (0, 0, 0) sSteady) false (0, 0, 0)
      = Except.ok 1 := by
    rw [sSteady_reject true]
    exact sSteady_resid false
  rw [fitRound_eq_ok env0 1 (fun _ => ((0 : ℚ), (0 : ℚ), (0 : ℚ))) sSteady 1 1
    (sSteady_resid true) h2, sSteady_reject true, sSteady_reject false]

/-- Witness for claim C7: a completed round on a concrete one-point
dataset leaves an aligned state. -/
theorem round_alignment_witness : Aligned3 sSteady :=
  (round_alignment env0 1 (fun _ => (0, 0, 0)) sSteady sSteady sSteady_round).1

/-- Claim C6 (amended): if exactly the observation j has Q residual
exceeding twice the Q RMS while all others are strictly within the
limit, the Q pass removes exactly observation j; provided additionally
that every remaining U residual is strictly within twice the U RMS
computed after the Q pass, the full round completes with exactly
observation j removed and all other elevation, Q and U entries unchanged
and in their original relative order. -/
theorem single_outlier_round (env : MathEnv) (ival : ℚ) (x : ℚ × ℚ × ℚ) (s : FitState)
    (j : ℕ) (qrms urms : ℚ) (hal : Aligned3 s) (hj : j < s.elist.length)
    (hq : resid env ival s true x = Except.ok qrms)
    (hout : 2 * qrms < |dquAt env ival s true x j|)
    (hin : ∀ i, i < s.elist.length → i ≠ j → |dquAt env ival s true x i| < 2 * qrms)
    (hu : resid env ival (reject env ival true (2 * qrms) x s) false x = Except.ok urms)
    (hukeep : ∀ i, i < (reject env ival true (2 * qrms) x s).elist.length →
      |dquAt env ival (reject env ival true (2 * qrms) x s) false x i| < 2 * urms) :
    fitRound env ival (fun _ => x) s =
      Except.ok { s with elist := s.elist.eraseIdx j, qlist := s.qlist.eraseIdx j,
                         ulist := s.ulist.eraseIdx j } := by
  have hrej1 : reject env ival true (2 * qrms) x s =
      { s with elist := s.elist.eraseIdx j, qlist := s.qlist.eraseIdx j,
               ulist := s.ulist.eraseIdx j } :=
    reject_outlier env ival true (2 * qrms) x s j hal (not_lt.mpr (le_of_lt hout)) hin
  obtain ⟨halq, halu⟩ := hal
  have hal2 : Aligned3 { s with elist := s.elist.eraseIdx j, qlist := s.qlist.eraseIdx j,
                                ulist := s.ulist.eraseIdx j } := by
    constructor <;> simp [List.length_eraseIdx, halq, halu]
  rw [hrej1] at hukeep
  have hrej2 : reject env ival false (2 * urms) x
      { s with elist := s.elist.eraseIdx j, qlist := s.qlist.eraseIdx j,
               ulist := s.ulist.eraseIdx j } =
      { s with elist := s.elist.eraseIdx j, qlist := s.qlist.eraseIdx j,
               ulist := s.ulist.eraseIdx j } :=
    reject_keep_all env ival false (2 * urms) x _ hal2 hukeep
  rw [fitRound_eq_ok env ival (fun _ => x) s qrms urms hq hu, hrej1, hrej2]

/-- Q pass on the nine-point dataset with U noise: the outlier at index
0 is removed. -/
theorem sOutlierU_reject_q :
    reject env0 1 true (2 * 1) (0, 0, 0) sOutlierU =
      { elist := [0, 0, 0, 0, 0, 0, 0, 0], alist := [],
        qlist := [0, 0, 0, 0, 0, 0, 0, 0], ulist := [1, 1, 1, 1, 1, 1, 1, 1],
        utlist := [], obsnumlist := [], wvmlist := [] } := by
  rw [reject, keptIdx, show sOutlierU.elist.length = 9 from rfl,
    show List.range 9 = [0, 1, 2, 3, 4, 5, 6, 7, 8] from rfl]
  norm_num [dquAt, model, model2, radiansQ, env0, sOutlierU]

/-- Witness for claim C6 (amended) on the nine-point dataset with one Q
outlier (residual 3, Q RMS 1) and U residuals 1 (U RMS 1): the round
removes exactly the outlier. -/
theorem single_outlier_round_witness :
    fitRound env0 1 (fun _ => ((0 : ℚ), (0 : ℚ), (0 : ℚ))) sOutlierU =
      Except.ok { sOutlierU with elist := sOutlierU.elist.eraseIdx 0,
                                 qlist := sOutlierU.qlist.eraseIdx 0,
                                 ulist := sOutlierU.ulist.eraseIdx 0 } :=
  single_outlier_round env0 1 (0, 0, 0) sOutlierU 0 1 1 (by decide) (by decide)
    (by
      rw [resid, show sOutlierU.elist.length = 9 from rfl,
        show List.range 9 = [0, 1, 2, 3, 4, 5, 6, 7, 8] from rfl]
      norm_num [dquAt, model, model2, radiansQ, env0, sOutlierU])
    (by norm_num [dquAt, model, model2, radiansQ, env0, sOutlierU])
    (by
      intro i hi hne
      rw [show sOutlierU.elist.length = 9 from rfl] at hi
      interval_cases i
      · exact absurd rfl hne
      all_goals norm_num [dquAt, model, model2, radiansQ, env0, sOutlierU])
    (by
      rw [sOutlierU_reject_q, resid]
      norm_num [dquAt, model, model2, radiansQ, env0,
        show List.range 8 = [0, 1, 2, 3, 4, 5, 6, 7] from rfl])
    (by
      intro i hi
      rw [sOutlierU_reject_q] at hi ⊢
      simp only [List.length_cons, List.length_nil] at hi
      interval_cases i <;>
        norm_num [dquAt, model, model2, radiansQ, env0])

/-- Counterexample to claim C6 as stated: on the nine-point dataset with
one Q outlier and all U values exactly on the model, the hypotheses of
the claim hold (Q residual 3 exceeds twice the Q RMS 1, all others are
strictly within), yet the first full rejection round does not leave the
other eight observations intact: the U pass computes a U RMS of 0 and
drops every remaining point, so the round ends with all three lists
empty instead of the eight remaining entries. -/
theorem single_outlier_counterexample :
    resid env0 1 sOutlier true (0, 0, 0) = Except.ok 1 ∧
    2 * 1 < |dquAt env0 1 sOutlier true (0, 0, 0) 0| ∧
    |dquAt env0 1 sOutlier true (0, 0, 0) 1| < 2 * 1 ∧
    |dquAt env0 1 sOutlier true (0, 0, 0) 2| < 2 * 1 ∧
    |dquAt env0 1 sOutlier true (0, 0, 0) 3| < 2 * 1 ∧
    |dquAt env0 1 sOutlier true (0, 0, 0) 4| < 2 * 1 ∧
    |dquAt env0 1 sOutlier true (0, 0, 0) 5| < 2 * 1 ∧
    |dquAt env0 1 sOutlier true (0, 0, 0) 6| < 2 * 1 ∧
    |dquAt env0 1 sOutlier true (0, 0, 0) 7| < 2 * 1 ∧
    |dquAt env0 1 sOutlier true (0, 0, 0) 8| < 2 * 1 ∧
    fitRound env0 1 (fun _ => ((0 : ℚ), (0 : ℚ), (0 : ℚ))) sOutlier =
      Except.ok { sOutlier with elist := [], qlist := [], ulist := [] } ∧
    sOutlier.elist.eraseIdx 0 ≠ [] := by
  have hrej1 : reject env0 1 true (2 * 1) (0, 0, 0) sOutlier =
      { elist := [0, 0, 0, 0, 0, 0, 0, 0], alist := [],
        qlist := [0, 0, 0, 0, 0, 0, 0, 0], ulist := [0, 0, 0, 0, 0, 0, 0, 0],
        utlist := [], obsnumlist := [], wvmlist := [] } := by
    rw [reject, keptIdx, show sOutlier.elist.length = 9 from rfl,
      show List.range 9 = [0, 1, 2, 3, 4, 5, 6, 7, 8] from rfl]
    norm_num [dquAt, model, model2, radiansQ, env0, sOutlier]
  have hq : resid env0 1 sOutlier true (0, 0, 0) = Except.ok 1 := by
    rw [resid, show sOutlier.elist.length = 9 from rfl,
      show List.range 9 = [0, 1, 2, 3, 4, 5, 6, 7, 8] from rfl]
    norm_num [dquAt, model, model2, radiansQ, env0, sOutlier]
  have hu : resid env0 1 (reject env0 1 true (2 * 1) (0, 0, 0) sOutlier) false (0, 0, 0)
      = Except.ok 0 := by
    rw [hrej1, resid]
    norm_num [dquAt, model, model2, radiansQ, env0,
      show List.range 8 = [0, 1, 2, 3, 4, 5, 6, 7] from rfl]
  have hrej2 : reject env0 1 false (2 * 0) (0, 0, 0)
      { elist := [0, 0, 0, 0, 0, 0, 0, 0], alist := [],
        qlist := [0, 0, 0, 0, 0, 0, 0, 0], ulist := [0, 0, 0, 0, 0, 0, 0, 0],
        utlist := ([] : List ℤ), obsnumlist := ([] : List ℤ), wvmlist := ([] : List ℚ) } =
      { elist := [], alist := [], qlist := [], ulist := [],
        utlist := [], obsnumlist := [], wvmlist := [] } := by
    rw [reject, keptIdx]
    norm_num [dquAt, model, model2, radiansQ, env0,
      show List.range 8 = [0, 1, 2, 3, 4, 5, 6, 7] from rfl]
  refine ⟨hq, ?_, ?_, ?_, ?_, ?_, ?_, ?_, ?_, ?_, ?_, ?_⟩
  · norm_num [dquAt, model, model2, radiansQ, env0, sOutlier]
  · norm_num [dquAt, model, model2, radiansQ, env0, sOutlier]
  · norm_num [dquAt, model, model2, radiansQ, env0, sOutlier]
  · norm_num [dquAt, model, model2, radiansQ, env0, sOutlier]
  · norm_num [dquAt, model, model2, radiansQ, env0, sOutlier]
  · norm_num [dquAt, model, model2, radiansQ, env0, sOutlier]
  · norm_num [dquAt, model, model2, radiansQ, env0, sOutlier]
  · norm_num [dquAt, model, model2, radiansQ, env0, sOutlier]
  · norm_num [dquAt, model, model2, radiansQ, env0, sOutlier]
  · rw [fitRound_eq_ok env0 1 (fun _ => ((0 : ℚ), (0 : ℚ), (0 : ℚ))) sOutlier 1 0 hq hu,
      hrej1, hrej2]
    rfl
  · simp [sOutlier]

/-- Counterexample to claim C1 as stated: a rejection pass on a
seven-list aligned one-observation state whose fitted residual is 0 (so
the RMS is 0 and the point is dropped) empties the elevation, Q and U
lists but leaves the azimuth, opacity, UT and observation-number lists
at their old length: the seven sequences no longer share one length. -/
theorem seven_lists_counterexample :
    Aligned7 sSeven ∧
    resid env0 1 sSeven true (1, 0, 0) = Except.ok 0 ∧
    ¬ Aligned7 (reject env0 1 true (2 * 0) (1, 0, 0) sSeven) := by
  have hrej : reject env0 1 true (2 * 0) (1, 0, 0) sSeven =
      { sSeven with elist := [], qlist := [], ulist := [] } := by
    rw [reject, keptIdx, show sSeven.elist.length = 1 from rfl,
      show List.range 1 = [0] from rfl]
    norm_num [dquAt, model, model2, radiansQ, env0, sSeven]
  refine ⟨by decide, ?_, ?_⟩
  · rw [resid, show sSeven.elist.length = 1 from rfl, show List.range 1 = [0] from rfl]
    norm_num [dquAt, model, model2, radiansQ, env0, sSeven]
  · rw [hrej]
    decide

/-- Claim C1 (amended): the per-observation accumulation step (including
the beamfit failure handler) keeps all seven sequences the same length
and index-aligned, but a rejection pass reconstructs only the elevation,
Q and U sequences together (keeping those three mutually aligned) and
leaves the azimuth, opacity, UT-date and observation-number sequences
with their full pre-rejection contents. -/
theorem seven_lists_amended :
    (∀ s el az wvm (ut obsnum : ℤ) qu,
      Aligned7 s → Aligned7 (addObs s el az wvm ut obsnum qu)) ∧
    (∀ env ival useq lim x s,
      (reject env ival useq lim x s).alist = s.alist ∧
      (reject env ival useq lim x s).wvmlist = s.wvmlist ∧
      (reject env ival useq lim x s).utlist = s.utlist ∧
      (reject env ival useq lim x s).obsnumlist = s.obsnumlist ∧
      Aligned3 (reject env ival useq lim x s)) := by
  constructor
  · intro s el az wvm ut obsnum qu hal
    unfold Aligned7 Aligned3 at hal ⊢
    obtain ⟨⟨h1, h2⟩, h3, h4, h5, h6⟩ := hal
    cases qu with
    | none =>
      simp [addObs, List.dropLast_concat, h1, h2, h3, h4, h5, h6]
    | some q2 =>
      obtain ⟨q, u⟩ := q2
      simp [addObs, h1, h2, h3, h4, h5, h6]
  · intro env ival useq lim x s
    exact ⟨rfl, rfl, rfl, rfl, reject_aligned3 env ival useq lim x s⟩

/-- Witness for claim C1 (amended): the accumulation step on a concrete
aligned state, for the beamfit-failure branch. -/
theorem seven_lists_amended_witness :
    Aligned7 (addObs sSeven 1 2 3 4 5 none) :=
  seven_lists_amended.1 sSeven 1 2 3 4 5 none (by decide)

/-- The loop can never complete more rounds than its fixed bound. -/
theorem runRounds_count_le (env : MathEnv) (ival : ℚ) (fit : FitState → ℚ × ℚ × ℚ) :
    ∀ n s, (runRounds env ival fit n s).1 ≤ n := by
  intro n
  induction n with
  | zero => intro s; simp [runRounds]
  | succ n ih =>
    intro s
    cases h : fitRound env ival fit s with
    | error e => simp [runRounds, h]
    | ok s2 =>
      simp only [runRounds, h]
      exact Nat.succ_le_succ (ih s2)

/-- If the loop finishes without an exception it completed every
round. -/
theorem runRounds_ok_count (env : MathEnv) (ival : ℚ) (fit : FitState → ℚ × ℚ × ℚ) :
    ∀ n s t, (runRounds env ival fit n s).2 = Except.ok t →
      (runRounds env ival fit n s).1 = n := by
  intro n
  induction n with
  | zero => intro s t h; simp [runRounds]
  | succ n ih =>
    intro s t h
    cases hr : fitRound env ival fit s with
    | error e => simp [runRounds, hr] at h
    | ok s2 =>
      simp only [runRounds, hr] at h ⊢
      rw [ih s2 t h]

/-- Unfolding step for a successful round of the loop. -/
theorem runRounds_succ_ok (env : MathEnv) (ival : ℚ) (fit : FitState → ℚ × ℚ × ℚ)
    (n : ℕ) (s s2 : FitState) (h : fitRound env ival fit s = Except.ok s2) :
    runRounds env ival fit (n + 1) s =
      ((runRounds env ival fit n s2).1 + 1, (runRounds env ival fit n s2).2) := by
  simp [runRounds, h]

/-- Unfolding step for a failing round of the loop. -/
theorem runRounds_succ_error (env : MathEnv) (ival : ℚ) (fit : FitState → ℚ × ℚ × ℚ)
    (n : ℕ) (s : FitState) (h : fitRound env ival fit s = Except.error ()) :
    runRounds env ival fit (n + 1) s = (0, Except.error ()) := by
  simp [runRounds, h]

/-- Claim C8 (amended): the fitting loop is driven by the fixed
iteration count 3 and no convergence criterion: it never completes more
than 3 rounds, and whenever it terminates without an uncaught
ZeroDivisionError it has completed exactly 3 rounds, for every dataset
and every fitted parameter sequence. -/
theorem fit_loop_rounds (env : MathEnv) (ival : ℚ) (fit : FitState → ℚ × ℚ × ℚ)
    (s : FitState) :
    (fitLoop env ival fit s).1 ≤ 3 ∧
    (∀ t, (fitLoop env ival fit s).2 = Except.ok t → (fitLoop env ival fit s).1 = 3) :=
  ⟨runRounds_count_le env ival fit 3 s,
   fun t h => runRounds_ok_count env ival fit 3 s t h⟩

/-- Witness for claim C8 (amended): on the steady one-point dataset the
loop completes exactly 3 rounds. -/
theorem fit_loop_rounds_witness :
    (fitLoop env0 1 (fun _ => ((0 : ℚ), (0 : ℚ), (0 : ℚ))) sSteady).1 = 3 :=
  (fit_loop_rounds env0 1 (fun _ => ((0 : ℚ), (0 : ℚ), (0 : ℚ))) sSteady).2 sSteady
    (by
      rw [fitLoop,
        runRounds_succ_ok env0 1 _ 2 sSteady sSteady sSteady_round,
        runRounds_succ_ok env0 1 _ 1 sSteady sSteady sSteady_round,
        runRounds_succ_ok env0 1 _ 0 sSteady sSteady sSteady_round]
      rfl)

/-- The Q RMS on the perfectly fitted one-point dataset is 0. -/
theorem sPerfect_resid_q : resid env0 1 sPerfect true (1, 0, 0) = Except.ok 0 := by
  rw [resid, show sPerfect.elist.length = 1 from rfl, show List.range 1 = [0] from rfl]
  norm_num [dquAt, model, model2, radiansQ, env0, sPerfect]

/-- The Q pass with limit 2 * 0 drops the perfectly fitted point. -/
theorem sPerfect_reject_q :
    reject env0 1 true (2 * 0) (1, 0, 0) sPerfect =
      { sPerfect with elist := [], qlist := [], ulist := [] } := by
  rw [reject, keptIdx, show sPerfect.elist.length = 1 from rfl,
    show List.range 1 = [0] from rfl]
  norm_num [dquAt, model, model2, radiansQ, env0, sPerfect]

/-- The round on the perfectly fitted dataset aborts: after the Q pass
empties the lists, the U RMS computation divides by zero. -/
theorem sPerfect_round_error :
    fitRound env0 1 (fun _ => ((1 : ℚ), (0 : ℚ), (0 : ℚ))) sPerfect = Except.error () := by
  apply fitRound_eq_error env0 1 (fun _ => ((1 : ℚ), (0 : ℚ), (0 : ℚ))) sPerfect 0
    sPerfect_resid_q
  rw [sPerfect_reject_q, resid]
  simp

/-- Counterexample to claim C8 as stated: on the perfectly fitted
one-point dataset the loop completes 0 rounds, not 3 - the first round
rejects every point and the next RMS computation raises
ZeroDivisionError, aborting the loop. -/
theorem fit_loop_counterexample :
    sPerfect.elist ≠ [] ∧
    fitLoop env0 1 (fun _ => ((1 : ℚ), (0 : ℚ), (0 : ℚ))) sPerfect = (0, Except.error ()) ∧
    (fitLoop env0 1 (fun _ => ((1 : ℚ), (0 : ℚ), (0 : ℚ))) sPerfect).1 ≠ 3 := by
  refine ⟨by simp [sPerfect], ?_, ?_⟩
  · rw [fitLoop, runRounds_succ_error env0 1 _ 2 sPerfect sPerfect_round_error]
  · rw [fitLoop, runRounds_succ_error env0 1 _ 2 sPerfect sPerfect_round_error]
    decide

/-- Claim C10: resid raises ZeroDivisionError exactly on an empty
elevation list; the precondition is not enforced by the loop - a
rejection pass can empty the lists from a nonempty state, after which
the next resid call inside the same round fails. -/
theorem resid_requires_nonempty :
    (∀ env ival (s : FitState) useq x,
      resid env ival s useq x = Except.error () ↔ s.elist = []) ∧
    sPerfect.elist ≠ [] ∧
    resid env0 1 sPerfect true (1, 0, 0) = Except.ok 0 ∧
    (reject env0 1 true (2 * 0) (1, 0, 0) sPerfect).elist = [] ∧
    fitRound env0 1 (fun _ => ((1 : ℚ), (0 : ℚ), (0 : ℚ))) sPerfect = Except.error () := by
  refine ⟨?_, by simp [sPerfect], sPerfect_resid_q, ?_, sPerfect_round_error⟩
  · intro env ival s useq x
    unfold resid
    by_cases h : s.elist.length = 0
    · rw [if_pos h]
      simp [List.length_eq_zero.mp h]
    · rw [if_neg h]
      simp only [reduceCtorEq, false_iff]
      intro hcontra
      exact h (by rw [hcontra]; rfl)
  · rw [sPerfect_reject_q]

/-- Witness for claim C10: resid on a concrete empty state raises
ZeroDivisionError. -/
theorem resid_requires_nonempty_witness :
    resid env0 1 { elist := [], alist := [], qlist := [], ulist := [],
                   utlist := [], obsnumlist := [], wvmlist := [] } true (0, 0, 0)
      = Except.error () :=
  (resid_requires_nonempty.1 env0 1
    { elist := [], alist := [], qlist := [], ulist := [],
      utlist := [], obsnumlist := [], wvmlist := [] } true (0, 0, 0)).mpr rfl

end Pol2Ip

namespace Scripts

/-- Counterexample to claim C2 as stated: in tounimap.py neither
exception handler performs cleanup.  A StarUtilError is printed together
with a notice that the intermediate files are being retained, and any
other exception prints the notice and is re-raised - in both cases the
cleanup function is not invoked. -/
theorem cleanup_counterexample :
    (tounimapRun "tdir" (BodyOutcome.starUtilError "msg")).cleanupCalled = false ∧
    (tounimapRun "tdir" BodyOutcome.other).cleanupCalled = false ∧
    (tounimapRun "tdir" (BodyOutcome.starUtilError "msg")).printed =
      ["msg", retentionMessage "tdir"] :=
  ⟨rfl, rfl, rfl⟩

/-- Claim C2 (amended): pol2ip.py, pol2stack.py and configmeld.py catch
StarUtilError at top level, print its message and perform cleanup, and
on any other exception perform cleanup and re-raise; tounimap.py prints
the message (plus a retention notice) without cleanup on StarUtilError,
and re-raises other exceptions without cleanup; all four run cleanup on
normal completion. -/
theorem cleanup_behaviour (m tempdir : String) :
    pol2ipRun BodyOutcome.ok
      = { cleanupCalled := true, printed := [], reraised := false } ∧
    pol2ipRun (BodyOutcome.starUtilError m)
      = { cleanupCalled := true, printed := [m], reraised := false } ∧
    pol2ipRun BodyOutcome.other
      = { cleanupCalled := true, printed := [], reraised := true } ∧
    pol2stackRun BodyOutcome.ok
      = { cleanupCalled := true, printed := [], reraised := false } ∧
    pol2stackRun (BodyOutcome.starUtilError m)
      = { cleanupCalled := true, printed := [m], reraised := false } ∧
    pol2stackRun BodyOutcome.other
      = { cleanupCalled := true, printed := [], reraised := true } ∧
    configmeldRun BodyOutcome.ok
      = { cleanupCalled := true, printed := [], reraised := false } ∧
    configmeldRun (BodyOutcome.starUtilError m)
      = { cleanupCalled := true, printed := [m], reraised := false } ∧
    configmeldRun BodyOutcome.other
      = { cleanupCalled := true, printed := [], reraised := true } ∧
    tounimapRun tempdir BodyOutcome.ok
      = { cleanupCalled := true, printed := [], reraised := false } ∧
    tounimapRun tempdir (BodyOutcome.starUtilError m)
      = { cleanupCalled := false, printed := [m, retentionMessage tempdir],
          reraised := false } ∧
    tounimapRun tempdir BodyOutcome.other
      = { cleanupCalled := false, printed := [retentionMessage tempdir],
          reraised := true } :=
  ⟨rfl, rfl, rfl, rfl, rfl, rfl, rfl, rfl, rfl, rfl, rfl, rfl⟩

end Scripts

namespace ConfigMeld

/-- Claim C9: when both configs are NDFs whose subarray codes indicate
different wavebands (second character 4 versus 8), each file keeps and
reports its own waveband and its own configecho selection; when neither
config is an NDF, the user-supplied WAVEBAND parameter is used for
both. -/
theorem waveband_selection :
    (∀ sa1 sa2 : String, (sa1.drop 1).take 1 = "4" → (sa2.drop 1).take 1 = "8" →
      ∀ par c1 c2 : String,
      wavebandOf true (some sa1) = Except.ok (some "450") ∧
      wavebandOf true (some sa2) = Except.ok (some "850") ∧
      mergeWavebands (some "450") (some "850") par = (some "450", some "850") ∧
      wavebandReport (some "450") (some "850") c1 c2 =
        ["Showing 450 um values from " ++ c1,
         "Showing 850 um values from " ++ c2] ∧
      selectFor (some "450") = "850=0,450=1" ∧
      selectFor (some "850") = "850=1,450=0") ∧
    (∀ (sa : Option String) (par : String),
      wavebandOf false sa = Except.ok none ∧
      mergeWavebands none none par = (some par, some par) ∧
      wavebandReport (some par) (some par) "c1" "c2" =
        ["Showing " ++ par ++ " um values"]) := by
  constructor
  · intro sa1 sa2 h4 h8 par c1 c2
    refine ⟨?_, ?_, rfl, rfl, rfl, rfl⟩
    · simp [wavebandOf, h4]
    · simp [wavebandOf, h8]
  · intro sa par
    exact ⟨rfl, rfl, by simp [wavebandReport, showWaveband]⟩

/-- Witness for claim C9 at concrete subarray codes s4a and s8d and a
concrete parameter value. -/
theorem waveband_selection_witness :
    wavebandOf true (some "s4a") = Except.ok (some "450") ∧
    wavebandOf true (some "s8d") = Except.ok (some "850") ∧
    mergeWavebands (some "450") (some "850") "850" = (some "450", some "850") ∧
    wavebandReport (some "450") (some "850") "map1.sdf" "map2.sdf" =
      ["Showing 450 um values from " ++ "map1.sdf",
       "Showing 850 um values from " ++ "map2.sdf"] ∧
    selectFor (some "450") = "850=0,450=1" ∧
    selectFor (some "850") = "850=1,450=0" :=
  waveband_selection.1 "s4a" "s8d" rfl rfl "850" "map1.sdf" "map2.sdf"

end ConfigMeld
